import Mathlib

/-
Verification of the ai-indexer metadata store and query pipeline
(src/gemini.py) against its specification.

The embedding models Python values that appear in the program:
- JSON-like data (`Json`), with dict keys that may be Python ints or
  strings (`PyKey`), because add_to_index inserts an int key into a dict
  that otherwise holds string keys (gemini.py line 671).
- `json.dump` followed by `json.load` (`dumpLoad`): keys are serialized
  to strings; duplicate serialized keys are resolved last-value-wins at
  the first occurrence position, as in CPython.
- Raised exceptions are modelled as `Except.error` with a label naming
  the Python exception.
External collaborators (the generative service, its upload endpoint and
the ffmpeg subprocess) are modelled as oracle fields of an environment
record; the program logic itself is translated from gemini.py.
-/

/-- A Python dict key as used by the program: either an int or a str. -/
inductive PyKey where
  | intKey (n : Nat)
  | strKey (s : String)
deriving DecidableEq, Repr

/-- JSON-like Python values (dicts keep insertion order, keys may be
int or str in memory before serialization). -/
inductive Json where
  | null
  | bool (b : Bool)
  | num (n : Int)
  | str (s : String)
  | arr (xs : List Json)
  | obj (fields : List (PyKey × Json))
deriving Repr

/-- Serialization of a dict key by json.dump: ints print in decimal. -/
def keyStr : PyKey → String
  | .intKey n => toString n
  | .strKey s => s

/-- Lookup in an insertion-ordered dict (first matching key). -/
def objLookup : List (PyKey × Json) → PyKey → Option Json
  | [], _ => none
  | (k, v) :: fs, k0 => if k = k0 then some v else objLookup fs k0

/-- Python dict assignment: replace the value in place if the key is
present, otherwise append at the end. -/
def objUpdate (fs : List (PyKey × Json)) (k0 : PyKey) (v0 : Json) :
    List (PyKey × Json) :=
  if (objLookup fs k0).isSome then
    fs.map (fun p => if p.1 = k0 then (p.1, v0) else p)
  else
    fs ++ [(k0, v0)]

/-- Building a dict from a field sequence by repeated assignment; this is
how json.load resolves duplicate keys (last value wins, first position). -/
def loadFieldsAux (acc : List (PyKey × Json)) :
    List (PyKey × Json) → List (PyKey × Json)
  | [] => acc
  | (k, v) :: fs => loadFieldsAux (objUpdate acc k v) fs

def loadFields (fs : List (PyKey × Json)) : List (PyKey × Json) :=
  loadFieldsAux [] fs

mutual

/-- Effect of json.dump followed by json.load on an in-memory value:
dict keys become strings, duplicates are resolved as json.load does. -/
def dumpLoad : Json → Json
  | .null => .null
  | .bool b => .bool b
  | .num n => .num n
  | .str s => .str s
  | .arr xs => .arr (dumpLoadList xs)
  | .obj fs => .obj (loadFields (dumpLoadFields fs))

def dumpLoadList : List Json → List Json
  | [] => []
  | x :: xs => dumpLoad x :: dumpLoadList xs

def dumpLoadFields : List (PyKey × Json) → List (PyKey × Json)
  | [] => []
  | (k, v) :: fs => (.strKey (keyStr k), dumpLoad v) :: dumpLoadFields fs

end

/-- Python truthiness for the values the program tests with `if not x`. -/
def pyTruthy : Json → Bool
  | .null => false
  | .bool b => b
  | .num n => decide (n ≠ 0)
  | .str s => !(s.data.isEmpty)
  | .arr xs => !(xs.isEmpty)
  | .obj fs => !(fs.isEmpty)

def pyTruthyOpt : Option Json → Bool
  | none => false
  | some v => pyTruthy v

/-- Python len() on the values the program measures. -/
def pyLen : Json → Except String Nat
  | .obj fs => .ok fs.length
  | .arr xs => .ok xs.length
  | .str s => .ok s.length
  | _ => .error ("TypeError")

/-- Python subscript `x[k]`: KeyError on a dict miss, TypeError when the
value is not subscriptable by this key. -/
def pyGetItem : Json → PyKey → Except String Json
  | .obj fs, k =>
    match objLookup fs k with
    | some v => .ok v
    | none => .error ("KeyError")
  | _, _ => .error ("TypeError")

/-- Python str() on the scalar values the program formats (containers do
not reach str() in the modelled paths). -/
def pyStr : Json → String
  | .num n => toString n
  | .str s => s
  | .bool true => "True"
  | .bool false => "False"
  | .null => "None"
  | .arr _ => ""
  | .obj _ => ""

/-- Python iteration `for x in v`: lists yield elements, strings yield
characters, dicts yield keys; other values raise TypeError. -/
def pyIterate : Json → Except String (List Json)
  | .arr xs => .ok xs
  | .str s => .ok (s.data.map (fun c => Json.str (String.mk [c])))
  | .obj fs =>
    .ok (fs.map (fun p =>
      match p.1 with
      | .intKey n => Json.num (Int.ofNat n)
      | .strKey s => Json.str s))
  | _ => .error ("TypeError")

/-- Substring test on character lists: does the list start with pat. -/
def startsWithL : List Char → List Char → Bool
  | [], _ => true
  | _ :: _, [] => false
  | p :: ps, c :: cs => p = c && startsWithL ps cs

/-- Substring test on character lists: does pat occur anywhere. -/
def containsL (pat : List Char) : List Char → Bool
  | [] => startsWithL pat []
  | c :: cs => startsWithL pat (c :: cs) || containsL pat cs

/-- Python `pat in s` substring containment. -/
def containsSubstr (s pat : String) : Bool :=
  containsL pat.data s.data

/-- Whitespace characters stripped by Python str.strip(). -/
def isSpaceChar (c : Char) : Bool :=
  c = ' ' || c = '\n' || c = '\t' || c = '\r'

/-- Python str.strip(). -/
def pyStrip (s : String) : String :=
  String.mk (((s.data.dropWhile isSpaceChar).reverse.dropWhile
    isSpaceChar).reverse)

/-- Python sep.join(parts). -/
def joinSep (sep : String) : List String → String
  | [] => ""
  | [x] => x
  | x :: xs => x ++ sep ++ joinSep sep xs

/-- Split a character list on a separator character. -/
def splitOnChar (c : Char) : List Char → List (List Char)
  | [] => [[]]
  | x :: xs =>
    let r := splitOnChar c xs
    if x = c then [] :: r
    else
      match r with
      | [] => [[x]]
      | y :: ys => (x :: y) :: ys

/-- Final component of a path, like pathlib PurePath.name. -/
def pathName (p : String) : String :=
  String.mk ((splitOnChar '/' p.data).getLastD [])

/-- Final component without its last suffix, like pathlib PurePath.stem. -/
def pathStem (p : String) : String :=
  let n := (splitOnChar '/' p.data).getLastD []
  let parts := splitOnChar '.' n
  String.mk
    (if 2 ≤ parts.length ∧ ¬(parts.length = 2 ∧ parts.headD [] = []) then
      joinSep' parts.dropLast
    else n)
where
  joinSep' : List (List Char) → List Char
    | [] => []
    | [x] => x
    | x :: xs => x ++ '.' :: joinSep' xs

/-- Contents of the backing file lecture_data.json as seen by the
program: absent, present but not syntactically valid JSON, or a parsed
JSON value. -/
inductive FileContent where
  | absent
  | invalidJson
  | jsonVal (v : Json)

/-- The empty store value that load_metadata fabricates. -/
def emptyMeta : Json :=
  Json.obj [(.strKey ("UUID"), Json.obj [])]

/-- load_metadata (gemini.py lines 39-72): missing file or a
json.JSONDecodeError yield the empty store; any other parse result is
returned after ensuring a UUID key when the top level is a dict.  A top
level that is valid JSON but not a dict hits `"UUID" not in data` /
`data["UUID"] = \x7b\x7d` with Python container semantics: lists and
strings support `in` (element / substring) but item assignment to a
fresh key raises TypeError; numbers, booleans and null raise TypeError
already at `in`. -/
def load_metadata : FileContent → Except String Json
  | .absent => .ok emptyMeta
  | .invalidJson => .ok emptyMeta
  | .jsonVal v =>
    match v with
    | .obj fields =>
      if fields.any (fun p => decide (p.1 = PyKey.strKey ("UUID"))) then
        .ok (.obj fields)
      else
        .ok (.obj (objUpdate fields (PyKey.strKey ("UUID")) (.obj [])))
    | .arr xs =>
      if xs.any (fun x =>
          match x with
          | .str s => decide (s = ("UUID"))
          | _ => false) then
        .ok (.arr xs)
      else .error ("TypeError")
    | .str s =>
      if containsSubstr s ("UUID") then .ok (.str s)
      else .error ("TypeError")
    | _ => .error ("TypeError")

/-- save_metadata (gemini.py lines 75-81): json.dump of the in-memory
value; the file afterwards holds text that parses back to
`dumpLoad data`. -/
def save_metadata (data : Json) : FileContent :=
  .jsonVal (dumpLoad data)

/-- Configuration constants (gemini.py lines 14-24). -/
def CONFIG_FILE : String := "lecture_data.json"

def VIDEO_BASE_DIR : String := "lectures"

def API_RETRY_DELAY : Nat := 5

def MAX_API_RETRIES : Nat := 3

/-- A record dict as built by add_to_index (gemini.py lines 655-661). -/
structure Record where
  path : List String
  filename : String
  type : String
  archive : String
  index_summary : String
deriving Repr

/-- The dict literal of gemini.py lines 655-661 for a record. -/
def recordToJson (r : Record) : Json :=
  Json.obj
    [ (.strKey ("Path"), .arr (r.path.map Json.str)),
      (.strKey ("Filename"), .str r.filename),
      (.strKey ("Type"), .str r.type),
      (.strKey ("Archive"), .str r.archive),
      (.strKey ("index_summary"), .str r.index_summary) ]

/-- Outcome of one attempt of the generate_content call inside
safe_generate_content (gemini.py lines 178-195): the call may raise, the
response object may be falsy, it may carry a text attribute (whose value
may be None), or lack the attribute (which the code turns into a raise). -/
inductive ApiOutcome where
  | raises (msg : String)
  | falsyResponse
  | textResponse (t : Option String)
  | noTextAttr

/-- One attempt reduced to either a returned value or an exception
message, following the body of the try block. -/
def attemptResult : ApiOutcome → Except String (Option String)
  | .raises m => .error m
  | .noTextAttr => .error ("Response does not have text attribute.")
  | .falsyResponse => .ok none
  | .textResponse t => .ok t

/-- Loop of safe_generate_content; `remaining` counts attempts still
allowed (retries - attempt).  Returns the value Python returns together
with the number of time.sleep delays taken. -/
def sgcLoop (oracle : Nat → ApiOutcome) (retries : Nat) :
    Nat → Nat → Option String × Nat
  | _, 0 => (none, 0)
  | attempt, n + 1 =>
    match attemptResult (oracle attempt) with
    | .ok r => (r, 0)
    | .error m =>
      if n = 0 then
        (some ("Error: API call failed after " ++ toString retries ++
          " retries: " ++ m), 0)
      else
        let (r, d) := sgcLoop oracle retries (attempt + 1) n
        (r, d + 1)

/-- safe_generate_content (gemini.py lines 167-207): retry loop with a
fixed sleep between attempts; on exhaustion it returns a descriptive
error string instead of raising.  Second component counts delays. -/
def safe_generate_content (oracle : Nat → ApiOutcome)
    (retries : Nat) : Option String × Nat :=
  sgcLoop oracle retries 0 retries

/-- Outcome of the single generate_content call inside
get_structured_uuids_response (gemini.py lines 142-164): the call may
raise, return empty text, return text that fails json.loads, or return
text parsing to a JSON value. -/
inductive StructOutcome where
  | raises (msg : String)
  | emptyText
  | unparsable
  | parsed (v : Json)

/-- get_structured_uuids_response (gemini.py lines 84-164).  The
function makes exactly one generate_content call (no retry loop, no
empty-mapping early return); every failure branch returns None.  The
oracle is indexed by attempt number to make the absence of retries
visible: only attempt 0 is ever consulted.  Second component counts
collaborator calls issued. -/
def get_structured_uuids_response (data : Json)
    (oracle : Nat → StructOutcome) : Option Json × Nat :=
  let _ := data
  (match oracle 0 with
   | .parsed v => some v
   | _ => none, 1)

/-- Environment of external effects: the backing file, the filesystem,
the upload endpoint, the ffmpeg executable and the generative service
oracles.  Program logic never lives here; it is all in the defs below. -/
structure Env where
  configFile : FileContent
  fsExists : String → Bool
  upload : String → Except String Nat
  ffmpegPresent : Bool
  ffmpegAudioOk : Bool
  ffmpegVideoOk : Bool
  generate : Nat → ApiOutcome
  structCall : Nat → StructOutcome
  perRecord : Json → Nat → ApiOutcome
  synthesis : Nat → ApiOutcome

/-- shutil.copy of a source file into a directory: raises
FileNotFoundError when the source is missing, otherwise returns the
destination path dir/name. -/
def pyCopy (env : Env) (src dstDir : String) : Except String String :=
  if env.fsExists src then .ok (dstDir ++ "/" ++ pathName src)
  else .error ("FileNotFoundError")

/-- extract_from_video (gemini.py lines 210-282): reloads the metadata
to number the outputs (outside the try block, so a load failure
propagates), then runs two ffmpeg commands; a missing executable or a
nonzero exit is caught and turned into None. -/
def extract_from_video (env : Env) (video_path output_dir : String) :
    Except String (Option (List String)) := do
  let metadata ← load_metadata env.configFile
  let u ← pyGetItem metadata (.strKey ("UUID"))
  let n ← pyLen u
  let no := toString (n + 1)
  let audio_output_path :=
    output_dir ++ "/" ++ no ++ "." ++ pathStem video_path ++ ".opus"
  let video_output_path :=
    output_dir ++ "/" ++ no ++ "." ++ pathStem video_path ++ ".mp4"
  if !env.ffmpegPresent then pure none
  else if !env.ffmpegAudioOk then pure none
  else if !env.ffmpegVideoOk then pure none
  else pure (some [video_output_path, audio_output_path])

/-- extract_from_audio (gemini.py lines 285-334): one ffmpeg command, no
metadata reload; failures are caught and turned into None. -/
def extract_from_audio (env : Env) (audio_path output_dir : String) :
    Except String (Option (List String)) :=
  let audio_output_path :=
    output_dir ++ "/" ++ pathStem audio_path ++ ".opus"
  if !env.ffmpegPresent then .ok none
  else if !env.ffmpegAudioOk then .ok none
  else .ok (some [audio_output_path])

/-- The temp_list loop of index_content (gemini.py lines 347-353): a
warning is printed for a missing file but the append is unconditional,
so nothing is dropped.  Second component counts warnings printed. -/
def indexSurvivors (fsExists : String → Bool) :
    List String → List String × Nat
  | [] => ([], 0)
  | p :: ps =>
    let (rest, w) := indexSurvivors fsExists ps
    (p :: rest, (if fsExists p then 0 else 1) + w)

/-- Upload every file in order; a raise from the upload endpoint
propagates (the loop at gemini.py lines 355-359 has no try). -/
def uploadList (upload : String → Except String Nat) :
    List String → Except String (List Nat)
  | [] => .ok []
  | p :: ps => do
    let h ← upload p
    let hs ← uploadList upload ps
    pure (h :: hs)

/-- index_content (gemini.py lines 337-374): keeps the full path list
(the existence check only warns), uploads every file, then calls
safe_generate_content; a truthy response text is returned, anything else
becomes None. -/
def index_content (exists? : String → Bool)
    (upload : String → Except String Nat) (generate : Nat → ApiOutcome)
    (path : List String) : Except String (Option String) := do
  let path := (indexSurvivors exists? path).1
  let _handles ← uploadList upload path
  let (response_text, _) := safe_generate_content generate MAX_API_RETRIES
  match response_text with
  | some t => if t.data.isEmpty then pure none else pure (some t)
  | none => pure none

/-- The id allocation of add_to_index (gemini.py line 627):
len(metadata["UUID"]) + 1. -/
def nextId (metadata : Json) : Except String Nat := do
  let u ← pyGetItem metadata (.strKey ("UUID"))
  let n ← pyLen u
  pure (n + 1)

/-- The store insertion of add_to_index (gemini.py line 671):
metadata["UUID"][next_uuid] = data, with next_uuid a Python int key. -/
def putUuid (metadata : Json) (n : Nat) (rec : Json) :
    Except String Json :=
  match metadata with
  | .obj fields =>
    match objLookup fields (.strKey ("UUID")) with
    | some (.obj inner) =>
      .ok (.obj (objUpdate fields (.strKey ("UUID"))
        (.obj (objUpdate inner (.intKey n) rec))))
    | some _ => .error ("TypeError")
    | none => .error ("KeyError")
  | _ => .error ("TypeError")

/-- add_to_index (gemini.py lines 615-672).  Returns the contents of the
backing file after the operation; an error means an uncaught exception
before save_metadata ran, leaving the file unchanged.  Files produced by
a successful extract or copy are treated as existing, hence the
effective existence test extends env.fsExists with the artifact list.
The warning-only loops over the inputs and the artifacts are not
modelled (they print and drop nothing). -/
def add_to_index (env : Env) (file_paths : List String)
    (file_type : String) : Except String FileContent := do
  match file_paths with
  | [] => pure env.configFile
  | f0 :: _ =>
    let metadata ← load_metadata env.configFile
    let next_uuid ← nextId metadata
    let (pathsOpt, archive) ←
      if file_type = ("Video") then do
        let p ← extract_from_video env f0 VIDEO_BASE_DIR
        let a ← pyCopy env f0 (VIDEO_BASE_DIR ++ "/Archive")
        pure (p, some a)
      else if file_type = ("Audio") then do
        let p ← extract_from_audio env f0 VIDEO_BASE_DIR
        let a ← pyCopy env f0 (VIDEO_BASE_DIR ++ "/Archive")
        pure (p, some a)
      else if file_type = ("Image") ∨ file_type = ("Text") ∨
          file_type = ("PDF") then do
        let c ← pyCopy env f0 VIDEO_BASE_DIR
        pure (some [c], none)
      else
        pure ((some [] : Option (List String)), (none : Option String))
    let artifacts ←
      match pathsOpt with
      | none =>
        Except.error
          ("AttributeError: NoneType object has no attribute copy")
      | some l => pure l
    let existsEff := fun p => decide (p ∈ artifacts) || env.fsExists p
    let paths := artifacts.filter existsEff
    let f ←
      match artifacts with
      | [] => Except.error ("IndexError: list index out of range")
      | a :: _ => pure a
    let summary ← index_content existsEff env.upload env.generate artifacts
    let data := recordToJson
      { path := paths,
        filename := pathName f,
        type := file_type,
        archive :=
          match archive with
          | some a => a
          | none => "",
        index_summary :=
          match summary with
          | some t => if t.data.isEmpty then ("Error: Summary not generated.") else t
          | none => ("Error: Summary not generated.") }
    let metadata1 ← putUuid metadata next_uuid data
    pure (save_metadata metadata1)

/-- Terminal outcomes of query_lectures, one per return/print path. -/
inductive QueryOutcome where
  | noLectures
  | relevanceError
  | noneRelevant
  | noValidAnswers
  | done (answer : String)
  | failed (ctx : String)
deriving Repr

/-- Filter and label of gemini.py lines 446-452: an answer is kept when
it is truthy and does not contain the error marker anywhere. -/
def answerLabel (p : Json × Option String) : Option String :=
  match p.2 with
  | some s =>
    if !s.data.isEmpty && !containsSubstr s ("Error:") then
      some ("Answer from File " ++ pyStr p.1 ++ ":" ++ "\n" ++ s)
    else none
  | none => none

/-- Predicate matching the filtered-out answers: Python-falsy (None or
empty) or carrying the error marker. -/
def answerFiltered : Option String → Bool
  | none => true
  | some s => s.data.isEmpty || containsSubstr s ("Error:")

/-- Step 3 of query_lectures (gemini.py lines 444-482): build the
synthesis context from the surviving per-record answers; if it is blank
report failure without another collaborator call, otherwise make one
final safe_generate_content call and check its text for the error
marker.  Second component counts collaborator calls issued here. -/
def synthesisStep (oracle : Nat → ApiOutcome) (query : String)
    (individual_answers : List (Json × Option String)) :
    QueryOutcome × Nat :=
  let _ := query
  let synthesis_context :=
    pyStrip (joinSep ("\n" ++ "\n") (individual_answers.filterMap answerLabel))
  if (pyStrip synthesis_context).data.isEmpty then
    (.noValidAnswers, 0)
  else
    let (final_answer, _) := safe_generate_content oracle MAX_API_RETRIES
    match final_answer with
    | some t =>
      if !t.data.isEmpty && !containsSubstr t ("Error:") then (.done t, 1)
      else (.failed synthesis_context, 1)
    | none => (.failed synthesis_context, 1)

/-- The videos_data loop of gemini.py lines 385-387: map every record to
its index_summary; a record without the key raises KeyError, a non-dict
store raises at .items(). -/
def buildSummaries : Json → Except String (List (PyKey × Json))
  | .obj fields =>
    fields.foldr
      (fun p acc => do
        let s ← pyGetItem p.2 (.strKey ("index_summary"))
        let rest ← acc
        pure ((p.1, s) :: rest))
      (.ok [])
  | _ => .error ("AttributeError")

/-- Step 2 of query_lectures (gemini.py lines 425-442): for each
selected id, look the record up under str(id) (KeyError when absent),
take its Path list, keep only existing files, upload them, make one
safe_generate_content call, and key the answer by the id.  Second
component counts collaborator calls. -/
def perRecordLoop (env : Env) (data : Json) :
    List Json → Except String (List (Json × Option String) × Nat)
  | [] => .ok ([], 0)
  | e :: es => do
    let lecture_info ← pyGetItem data (.strKey (pyStr e))
    let filesJ ← pyGetItem lecture_info (.strKey ("Path"))
    let filesL ← pyIterate filesJ
    let files := (filesL.map pyStr).filter env.fsExists
    let _handles ← uploadList env.upload files
    let (ans, _) := safe_generate_content (env.perRecord e) MAX_API_RETRIES
    let (rest, c) ← perRecordLoop env data es
    pure ((e, ans) :: rest, c + 1)

/-- query_lectures (gemini.py lines 378-482).  Returns the terminal
outcome and the number of generate_content calls issued, or an error for
an uncaught exception.  The summaries_context blank check (line 392) is
unreachable for a dict (json.dumps of a dict is never whitespace-only)
and is not modelled. -/
def query_lectures (env : Env) (query : String) :
    Except String (QueryOutcome × Nat) := do
  let metadata ← load_metadata env.configFile
  let data ← pyGetItem metadata (.strKey ("UUID"))
  if !pyTruthy data then pure (.noLectures, 0)
  else do
    let videos_data ← buildSummaries data
    let (relevant_ids, c1) :=
      get_structured_uuids_response (Json.obj videos_data) env.structCall
    match relevant_ids with
    | none => pure (.relevanceError, c1)
    | some v =>
      if !pyTruthy v then pure (.relevanceError, c1)
      else do
        let uuids ← pyGetItem v (.strKey ("UUIDs"))
        if !pyTruthy uuids then pure (.noneRelevant, c1)
        else do
          let elems ← pyIterate uuids
          let (individual_answers, c2) ← perRecordLoop env data elems
          let (out, c3) := synthesisStep env.synthesis query individual_answers
          pure (out, c1 + c2 + c3)

section StoreLemmas

theorem objLookup_cons_self (k : PyKey) (v : Json)
    (fs : List (PyKey × Json)) : objLookup ((k, v) :: fs) k = some v := by
  simp [objLookup]

theorem objLookup_eq_none_of_not_mem (fs : List (PyKey × Json)) (k : PyKey)
    (h : k ∉ fs.map Prod.fst) : objLookup fs k = none := by
  induction fs with
  | nil => rfl
  | cons p fs ih =>
    obtain ⟨k1, v1⟩ := p
    simp only [List.map_cons, List.mem_cons] at h
    push_neg at h
    have hne : ¬(k1 = k) := fun hk => h.1 hk.symm
    simp only [objLookup, if_neg hne]
    exact ih h.2

theorem objLookup_append_right (fs gs : List (PyKey × Json)) (k : PyKey)
    (h : k ∉ fs.map Prod.fst) :
    objLookup (fs ++ gs) k = objLookup gs k := by
  induction fs with
  | nil => rfl
  | cons p fs ih =>
    obtain ⟨k1, v1⟩ := p
    simp only [List.map_cons, List.mem_cons] at h
    push_neg at h
    have hne : ¬(k1 = k) := fun hk => h.1 hk.symm
    simp only [List.cons_append, objLookup, if_neg hne]
    exact ih h.2

theorem objUpdate_of_not_mem (fs : List (PyKey × Json)) (k : PyKey)
    (v : Json) (h : k ∉ fs.map Prod.fst) :
    objUpdate fs k v = fs ++ [(k, v)] := by
  simp [objUpdate, objLookup_eq_none_of_not_mem fs k h]

theorem mem_keys_objUpdate (fs : List (PyKey × Json)) (k k0 : PyKey)
    (v : Json) (h : k0 ∈ (objUpdate fs k v).map Prod.fst) :
    k0 ∈ fs.map Prod.fst ∨ k0 = k := by
  unfold objUpdate at h
  split at h
  · left
    have hfst : ∀ p : PyKey × Json,
        Prod.fst (if p.1 = k then (p.1, v) else p) = p.1 := by
      intro p
      split <;> rfl
    rw [List.map_map] at h
    simpa [Function.comp, hfst] using h
  · rw [List.map_append] at h
    rcases List.mem_append.mp h with h1 | h2
    · exact Or.inl h1
    · simp at h2
      exact Or.inr h2

theorem loadFieldsAux_not_mem (fs : List (PyKey × Json)) (k : PyKey) :
    ∀ acc : List (PyKey × Json), k ∉ fs.map Prod.fst →
    k ∉ acc.map Prod.fst → k ∉ (loadFieldsAux acc fs).map Prod.fst := by
  induction fs with
  | nil =>
    intro acc _ ha
    exact ha
  | cons p fs ih =>
    intro acc hf ha
    obtain ⟨k1, v1⟩ := p
    simp only [List.map_cons, List.mem_cons] at hf
    push_neg at hf
    refine ih (objUpdate acc k1 v1) hf.2 ?_
    intro hm
    rcases mem_keys_objUpdate acc k1 k v1 hm with h1 | h2
    · exact ha h1
    · exact hf.1 h2

theorem loadFieldsAux_append (fs gs : List (PyKey × Json)) :
    ∀ acc, loadFieldsAux acc (fs ++ gs) =
      loadFieldsAux (loadFieldsAux acc fs) gs := by
  induction fs with
  | nil => intro acc; rfl
  | cons p fs ih =>
    intro acc
    obtain ⟨k1, v1⟩ := p
    simp only [List.cons_append, loadFieldsAux]
    exact ih (objUpdate acc k1 v1)

theorem loadFields_lookup_fresh (fs : List (PyKey × Json)) (k : PyKey)
    (v : Json) (h : k ∉ fs.map Prod.fst) :
    objLookup (loadFields (fs ++ [(k, v)])) k = some v := by
  unfold loadFields
  rw [loadFieldsAux_append]
  have hA : k ∉ (loadFieldsAux [] fs).map Prod.fst :=
    loadFieldsAux_not_mem fs k [] h (by simp)
  show objLookup (loadFieldsAux (objUpdate (loadFieldsAux [] fs) k v) []) k
    = some v
  simp only [loadFieldsAux]
  rw [objUpdate_of_not_mem _ k v hA, objLookup_append_right _ _ k hA]
  simp [objLookup]

theorem loadFieldsAux_of_nodup (fs : List (PyKey × Json)) :
    ∀ acc, (fs.map Prod.fst).Nodup →
    (∀ k ∈ acc.map Prod.fst, k ∉ fs.map Prod.fst) →
    loadFieldsAux acc fs = acc ++ fs := by
  induction fs with
  | nil => intro acc _ _; simp [loadFieldsAux]
  | cons p fs ih =>
    intro acc hnd hdis
    obtain ⟨k1, v1⟩ := p
    simp only [List.map_cons, List.nodup_cons] at hnd
    have hk1 : k1 ∉ acc.map Prod.fst := by
      intro hm
      exact hdis k1 hm (by simp)
    simp only [loadFieldsAux]
    rw [objUpdate_of_not_mem acc k1 v1 hk1]
    rw [ih (acc ++ [(k1, v1)]) hnd.2 ?_]
    · simp
    · intro k hm
      rw [List.map_append] at hm
      rcases List.mem_append.mp hm with h1 | h2
      · intro hc
        exact hdis k h1 (List.mem_cons_of_mem _ hc)
      · simp at h2
        subst h2
        exact hnd.1

theorem loadFields_of_nodup (fs : List (PyKey × Json))
    (hnd : (fs.map Prod.fst).Nodup) : loadFields fs = fs := by
  unfold loadFields
  rw [loadFieldsAux_of_nodup fs [] hnd (by simp)]
  rfl

theorem dumpLoadFields_append (fs gs : List (PyKey × Json)) :
    dumpLoadFields (fs ++ gs) = dumpLoadFields fs ++ dumpLoadFields gs := by
  induction fs with
  | nil => rfl
  | cons p fs ih =>
    obtain ⟨k1, v1⟩ := p
    simp [dumpLoadFields, ih]

theorem dumpLoadFields_keys (fs : List (PyKey × Json)) :
    (dumpLoadFields fs).map Prod.fst =
      fs.map (fun p => PyKey.strKey (keyStr p.1)) := by
  induction fs with
  | nil => rfl
  | cons p fs ih =>
    obtain ⟨k1, v1⟩ := p
    simp only [dumpLoadFields, List.map_cons, ih]

theorem dumpLoadList_str (xs : List String) :
    dumpLoadList (xs.map Json.str) = xs.map Json.str := by
  induction xs with
  | nil => rfl
  | cons x xs ih =>
    simp only [List.map_cons, dumpLoadList, dumpLoad, ih]

theorem dumpLoad_recordToJson (r : Record) :
    dumpLoad (recordToJson r) = recordToJson r := by
  unfold recordToJson
  simp only [dumpLoad, dumpLoadFields, keyStr, dumpLoadList_str]
  rw [loadFields_of_nodup]
  simp only [List.map_cons, List.map_nil]
  decide

end StoreLemmas

theorem loadFields_single (k : PyKey) (v : Json) :
    loadFields [(k, v)] = [(k, v)] := rfl

theorem objUpdate_single_self (k : PyKey) (v v0 : Json) :
    objUpdate [(k, v)] k v0 = [(k, v0)] := by
  simp [objUpdate, objLookup]

theorem dumpLoad_obj (fs : List (PyKey × Json)) :
    dumpLoad (.obj fs) = .obj (loadFields (dumpLoadFields fs)) := by
  simp [dumpLoad]

theorem dumpLoadFields_cons (k : PyKey) (v : Json)
    (fs : List (PyKey × Json)) :
    dumpLoadFields ((k, v) :: fs) =
      (.strKey (keyStr k), dumpLoad v) :: dumpLoadFields fs := by
  simp [dumpLoadFields]

theorem dumpLoadFields_nil : dumpLoadFields [] = [] := by
  simp [dumpLoadFields]

theorem load_metadata_jsonVal_uuid (z : Json) :
    load_metadata (.jsonVal (.obj [(.strKey ("UUID"), z)])) =
      .ok (.obj [(.strKey ("UUID"), z)]) := by
  simp [load_metadata]

theorem pyGetItem_single (k : PyKey) (v : Json) :
    pyGetItem (.obj [(k, v)]) k = .ok v := by
  simp [pyGetItem, objLookup]

/-- C1: for every store of size N the id allocation of add_to_index
returns N + 1, and after inserting a record dict under that id (as a
Python int key), writing the store with save_metadata and reading it
back with load_metadata, the record is retrievable under the serialized
id token with all fields intact.  The freshness hypothesis is the
store's documented density invariant (keys 1..N, so the token N+1 is not
yet a key). -/
theorem c1_nextId_roundtrip (inner : List (PyKey × Json)) (r : Record)
    (hfresh : toString (inner.length + 1) ∉
      inner.map (fun p => keyStr p.1)) :
    nextId (Json.obj [(.strKey ("UUID"), Json.obj inner)]) =
      .ok (inner.length + 1) ∧
    ((putUuid (Json.obj [(.strKey ("UUID"), Json.obj inner)])
        (inner.length + 1) (recordToJson r)).bind
      (fun m1 => (load_metadata (save_metadata m1)).bind
        (fun m2 => (pyGetItem m2 (.strKey ("UUID"))).bind
          (fun u => pyGetItem u
            (.strKey (toString (inner.length + 1)))))))
      = .ok (recordToJson r) := by
  have hInt : PyKey.intKey (inner.length + 1) ∉ inner.map Prod.fst := by
    intro hm
    rcases List.mem_map.mp hm with ⟨p, hp, hfp⟩
    refine hfresh (List.mem_map.mpr ⟨p, hp, ?_⟩)
    rw [hfp]
    rfl
  have hD : PyKey.strKey (toString (inner.length + 1)) ∉
      (dumpLoadFields inner).map Prod.fst := by
    rw [dumpLoadFields_keys]
    intro hm
    rcases List.mem_map.mp hm with ⟨p, hp, hfp⟩
    exact hfresh (List.mem_map.mpr ⟨p, hp, PyKey.strKey.inj hfp⟩)
  have hupd := objUpdate_of_not_mem inner
    (.intKey (inner.length + 1)) (recordToJson r) hInt
  constructor
  · rfl
  · have h1 : putUuid (Json.obj [(.strKey ("UUID"), Json.obj inner)])
        (inner.length + 1) (recordToJson r)
        = Except.ok (Json.obj [(.strKey ("UUID"), Json.obj
            (inner ++ [(.intKey (inner.length + 1), recordToJson r)]))]) := by
      simp only [putUuid, objLookup_cons_self, hupd, objUpdate_single_self]
    rw [h1]
    have h2 : save_metadata (Json.obj [(.strKey ("UUID"), Json.obj
          (inner ++ [(.intKey (inner.length + 1), recordToJson r)]))])
        = FileContent.jsonVal (Json.obj [(.strKey ("UUID"), Json.obj
            (loadFields (dumpLoadFields inner ++
              [(.strKey (toString (inner.length + 1)),
                recordToJson r)])))]) := by
      simp only [save_metadata, dumpLoad_obj, dumpLoadFields_cons,
        dumpLoadFields_nil, dumpLoadFields_append, keyStr,
        dumpLoad_recordToJson, loadFields_single]
    simp only [Except.bind]
    rw [h2]
    rw [load_metadata_jsonVal_uuid]
    simp only [Except.bind]
    rw [pyGetItem_single]
    simp only [Except.bind]
    simp only [pyGetItem]
    rw [loadFields_lookup_fresh _ _ _ hD]

/-- A concrete record used in concrete-input theorems. -/
def rec0 : Record where
  path := [("lectures/a.pdf")]
  filename := "a.pdf"
  type := "PDF"
  archive := ""
  index_summary := "topic A"

theorem c1_witness :
    nextId (Json.obj [(.strKey ("UUID"), Json.obj [])]) = .ok 1 ∧
    ((putUuid (Json.obj [(.strKey ("UUID"), Json.obj [])]) 1
        (recordToJson rec0)).bind
      (fun m1 => (load_metadata (save_metadata m1)).bind
        (fun m2 => (pyGetItem m2 (.strKey ("UUID"))).bind
          (fun u => pyGetItem u (.strKey (toString 1))))))
      = .ok (recordToJson rec0) :=
  c1_nextId_roundtrip [] rec0 (by decide)

/-- A default environment: empty backing file, no files on disk, ffmpeg
available, uploads fail, generation succeeds with fixed texts, the
relevance call raises. -/
def baseEnv : Env where
  configFile := .absent
  fsExists := fun _ => false
  upload := fun _ => .error ("FileNotFoundError")
  ffmpegPresent := true
  ffmpegAudioOk := true
  ffmpegVideoOk := true
  generate := fun _ => .textResponse (some ("summary text"))
  structCall := fun _ => .raises ("boom")
  perRecord := fun _ _ => .textResponse (some ("fact"))
  synthesis := fun _ => .textResponse (some ("final"))

/-- Existence oracle where only present.txt exists. -/
def onlyPresent : String → Bool := fun p => decide (p = ("present.txt"))

/-- Upload endpoint that raises FileNotFoundError on a missing file and
yields a handle otherwise. -/
def uploadPresent : String → Except String Nat := fun p =>
  if onlyPresent p then .ok 1 else .error ("FileNotFoundError")

/-- C2: index_content on the non-empty artifact list [missing.txt]
raises FileNotFoundError past its boundary (the upload of the
still-present missing file is unguarded), instead of returning a
non-empty string or the None failure sentinel. -/
theorem c2_index_content_raises_on_missing_file :
    index_content onlyPresent uploadPresent
      (fun _ => ApiOutcome.textResponse (some ("s"))) [("missing.txt")]
      = .error ("FileNotFoundError") := rfl

/-- C3: the existence-check loop of index_content keeps every path (the
warning prints but nothing is dropped), so a missing artifact is still
submitted, and its upload raises instead of being skipped. -/
theorem c3_missing_paths_not_dropped :
    (indexSurvivors onlyPresent [("missing.txt"), ("present.txt")]).1
      = [("missing.txt"), ("present.txt")] ∧
    index_content onlyPresent uploadPresent
      (fun _ => ApiOutcome.textResponse (some ("s")))
      [("missing.txt"), ("present.txt")]
      = .error ("FileNotFoundError") :=
  ⟨rfl, rfl⟩

/-- An attempt oracle that fails twice, then would succeed on the third
attempt. -/
def failTwiceStruct : Nat → StructOutcome := fun n =>
  if n < 2 then .raises ("boom")
  else .parsed (Json.obj [(.strKey ("UUIDs"), Json.arr [Json.num 1])])

/-- C4 counterexample: the relevance-selection call is not wrapped by
the uniform retry policy.  With an oracle that fails twice and would
succeed on the third attempt, get_structured_uuids_response returns the
failure value None after issuing exactly one call (attempt 0 only, no
delays), rather than returning the successful result after two
retries. -/
theorem c4_selection_call_not_retried :
    get_structured_uuids_response
      (Json.obj [(.strKey ("1"), Json.str ("topic A"))]) failTwiceStruct
      = (none, 1) := rfl

/-- C4 (amended): the free-text calls that go through
safe_generate_content do follow the retry policy: an oracle failing on
attempts 0 and 1 and succeeding on attempt 2 yields the successful text
with exactly two inter-attempt delays. -/
theorem c4_retry_two_failures_then_success (oracle : Nat → ApiOutcome)
    (m0 m1 t : String) (h0 : oracle 0 = .raises m0)
    (h1 : oracle 1 = .raises m1)
    (h2 : oracle 2 = .textResponse (some t)) :
    safe_generate_content oracle MAX_API_RETRIES = (some t, 2) := by
  simp [safe_generate_content, MAX_API_RETRIES, sgcLoop, h0, h1, h2,
    attemptResult]

/-- An attempt oracle failing twice then succeeding, for the C4
witness. -/
def failTwiceApi : Nat → ApiOutcome := fun n =>
  if n = 0 then .raises ("e0")
  else if n = 1 then .raises ("e1")
  else .textResponse (some ("ok"))

theorem c4_witness :
    safe_generate_content failTwiceApi MAX_API_RETRIES = (some ("ok"), 2) :=
  c4_retry_two_failures_then_success failTwiceApi ("e0") ("e1") ("ok")
    rfl rfl rfl

/-- C5 counterexample: a backing file whose contents are malformed as a
store but are valid JSON (the number 5) makes load_metadata raise a
TypeError (at the `"UUID" not in data` / item-assignment line) instead
of returning the empty store. -/
theorem c5_load_raises_on_nonobject_json :
    load_metadata (.jsonVal (Json.num 5)) = .error ("TypeError") := rfl

/-- C5 (amended): load_metadata returns the empty store and does not
raise when the backing file is absent or its contents fail JSON
parsing; only those two failure shapes are handled. -/
theorem c5_load_empty_on_absent_or_invalid (c : FileContent)
    (h : c = .absent ∨ c = .invalidJson) :
    load_metadata c = .ok emptyMeta := by
  rcases h with h | h <;> rw [h] <;> rfl

theorem c5_witness : load_metadata .absent = .ok emptyMeta :=
  c5_load_empty_on_absent_or_invalid .absent (Or.inl rfl)

/-- Environment for the C6 scenario: empty store, the video source file
exists, the ffmpeg executable is absent. -/
def envC6 : Env :=
  { baseEnv with
    ffmpegPresent := false,
    fsExists := fun p => decide (p = ("lec.mp4")) }

/-- C6: with the encoder executable absent, extract_from_video returns
the Python None failure value, and add_to_index then raises an
AttributeError at `paths.copy()` instead of failing cleanly; the error
occurs before the store insertion and save_metadata, so no record is
created and the persisted store is unchanged. -/
theorem c6_add_video_encoder_absent_raises :
    extract_from_video envC6 ("lec.mp4") VIDEO_BASE_DIR = .ok none ∧
    add_to_index envC6 [("lec.mp4")] ("Video")
      = .error ("AttributeError: NoneType object has no attribute copy") :=
  ⟨rfl, rfl⟩

/-- C7 counterexample: get_structured_uuids_response issues one
collaborator call even for the empty summary mapping (it has no
early-return branch), rather than returning an empty id list with zero
calls. -/
theorem c7_selector_calls_on_empty_mapping :
    get_structured_uuids_response (Json.obj [])
      (fun _ => StructOutcome.raises ("boom")) = (none, 1) := rfl

/-- C7 (amended): the early return on an empty mapping lives in
query_lectures, not in the selector: on an empty store the query
operation stops with the no-lectures message before any collaborator
call, and produces no id list. -/
theorem c7_query_empty_store_no_call (env : Env) (q : String)
    (h : env.configFile = .absent) :
    query_lectures env q = .ok (.noLectures, 0) := by
  obtain ⟨cf, fs, up, fp, fa, fv, g, sc, pr, sy⟩ := env
  simp only at h
  subst h
  rfl

theorem c7_witness : query_lectures baseEnv ("tell me") = .ok (.noLectures, 0) :=
  c7_query_empty_store_no_call baseEnv ("tell me") rfl

/-- C8: when every per-record answer is Python-falsy (None or empty) or
contains the error marker, the synthesis step reports the
no-valid-answers failure and issues zero collaborator calls. -/
theorem c8_synthesis_no_valid_answers (oracle : Nat → ApiOutcome)
    (q : String) (answers : List (Json × Option String))
    (h : ∀ p ∈ answers, answerFiltered p.2 = true) :
    synthesisStep oracle q answers = (.noValidAnswers, 0) := by
  have hk : answers.filterMap answerLabel = [] := by
    rw [List.filterMap_eq_nil_iff]
    intro p hp
    have hf := h p hp
    unfold answerFiltered at hf
    unfold answerLabel
    cases hq : p.2 with
    | none => rfl
    | some s =>
      rw [hq] at hf
      cases hA : s.data.isEmpty <;> cases hB : containsSubstr s ("Error:") <;>
        simp_all
  simp only [synthesisStep, hk]
  rfl

theorem c8_witness :
    synthesisStep (fun _ => ApiOutcome.raises ("x")) ("q")
      [(Json.num 1, some ("Error: x")), (Json.num 2, some (""))]
      = (.noValidAnswers, 0) :=
  c8_synthesis_no_valid_answers (fun _ => ApiOutcome.raises ("x")) ("q")
    [(Json.num 1, some ("Error: x")), (Json.num 2, some (""))] (by decide)

/-- Environment for the C9 scenario: the store holds one record under
the token 1; the relevance selector answers with id 2. -/
def envC9 : Env :=
  { baseEnv with
    configFile := .jsonVal (Json.obj [(.strKey ("UUID"), Json.obj
      [(.strKey ("1"), recordToJson rec0)])]),
    structCall := fun _ => .parsed (Json.obj
      [(.strKey ("UUIDs"), Json.arr [Json.num 2])]) }

/-- C9: the selector's id list is used without validation: when it
names id 2 but the store only holds id 1, query_lectures raises an
uncaught KeyError at metadata["UUID"][str(UUID)] instead of returning a
sentinel or message. -/
theorem c9_query_keyerror_unvalidated_id :
    query_lectures envC9 ("tell me about topic A") = .error ("KeyError") :=
  rfl

/-- C10: add_to_index with two or more source files behaves exactly as
with the first file alone; every file after the first contributes
nothing to the created record or the saved store. -/
theorem c10_add_uses_only_first_file (env : Env) (f : String)
    (rest : List String) (file_type : String) :
    add_to_index env (f :: rest) file_type
      = add_to_index env [f] file_type := rfl
